import Mathlib

/-!
Shallow embedding of the nutrition-tracking Telegram bot (`bot.py`):
the user/entry ledger, the daily-report aggregation and formatting, the
product-submission handler, the daily broadcast cycle, and the startup
configuration check.  External collaborators (translator, nutrient
lookup provider, notifier) are passed in as function parameters; dates
are opaque strings (the code always uses `datetime.now().strftime`).
Python floats are modelled by exact rationals.
-/

set_option autoImplicit false

namespace NutritionBot

/-! ## Python string primitives used by `add_product` and the report loop -/

/-- Whitespace characters recognised by Python `str.strip` / `str.split`. -/
def isPySpace (c : Char) : Bool :=
  c = ' ' || c = '\t' || c = '\n' || c = '\r' || c = '\x0b' || c = '\x0c'

/-- Model of Python `str.lower` on a single character, covering the ASCII
and Cyrillic letters that this bot's inputs consist of. -/
def pyLowerChar (c : Char) : Char :=
  if 'A' ≤ c ∧ c ≤ 'Z' then Char.ofNat (c.toNat + 32)
  else if 'А' ≤ c ∧ c ≤ 'Я' then Char.ofNat (c.toNat + 32)
  else if c = 'Ё' then 'ё' else c

/-- Model of Python `str.upper` on a single character (ASCII and Cyrillic). -/
def pyUpperChar (c : Char) : Char :=
  if 'a' ≤ c ∧ c ≤ 'z' then Char.ofNat (c.toNat - 32)
  else if 'а' ≤ c ∧ c ≤ 'я' then Char.ofNat (c.toNat - 32)
  else if c = 'ё' then 'Ё' else c

/-- Model of Python `str.lower`. -/
def pyLower (s : String) : String :=
  String.mk (s.data.map pyLowerChar)

/-- Model of Python `str.strip` (drop leading and trailing whitespace). -/
def pyStrip (s : String) : String :=
  String.mk (((s.data.dropWhile isPySpace).reverse.dropWhile isPySpace).reverse)

/-- Helper for `pySplit`: accumulates the current word (reversed) while
scanning the character list. -/
def wordsAux : List Char → List Char → List String
  | [], acc => if acc.isEmpty then [] else [String.mk acc.reverse]
  | c :: cs, acc =>
    if isPySpace c then
      if acc.isEmpty then wordsAux cs [] else String.mk acc.reverse :: wordsAux cs []
    else wordsAux cs (c :: acc)

/-- Model of Python `str.split()` with no separator: split on runs of
whitespace, returning no empty pieces. -/
def pySplit (s : String) : List String :=
  wordsAux s.data []

/-- Model of Python `str.capitalize`: first character uppercased, the
rest lowercased. -/
def capitalize (s : String) : String :=
  match s.data with
  | [] => ""
  | c :: cs => String.mk (pyUpperChar c :: cs.map pyLowerChar)

/-! ## Python `float(...)` on the quantity token, and numeric rendering -/

/-- Numeric value of a digit string. -/
def natOfDigits (l : List Char) : Nat :=
  l.foldl (fun a c => 10 * a + (c.toNat - 48)) 0

/-- Split a character list at the first dot, keeping the remainder verbatim. -/
def splitDot : List Char → List Char × Option (List Char)
  | [] => ([], none)
  | '.' :: r => ([], some r)
  | c :: r =>
    let p := splitDot r
    (c :: p.1, p.2)

/-- Split a character list at the first `e`, keeping the remainder verbatim. -/
def splitE : List Char → List Char × Option (List Char)
  | [] => ([], none)
  | 'e' :: r => ([], some r)
  | c :: r =>
    let p := splitE r
    (c :: p.1, p.2)

/-- PEP 515 underscore rule for numeric literals: every underscore must sit
directly between two digits.  The first argument is the preceding character
(initially a non-digit sentinel). -/
def underscoreOkAux : Char → List Char → Bool
  | _, [] => true
  | p, c :: rest =>
    if c = '_' then
      p.isDigit
        && (match rest with
            | d :: _ => d.isDigit
            | [] => false)
        && underscoreOkAux c rest
    else underscoreOkAux c rest

/-- Whether every underscore in the token is directly between two digits. -/
def underscoresOk (cs : List Char) : Bool := underscoreOkAux ' ' cs

/-- The value of a Python float: a finite double (modelled exactly by a
rational), the two infinities, or NaN. -/
inductive PyFloat where
  | finite (q : ℚ)
  | inf
  | ninf
  | nan
deriving DecidableEq

/-- Python `x <= y` for a float `x` against a finite bound `y`: IEEE
semantics, so any comparison with NaN is `False`. -/
def pyLe (x : PyFloat) (y : ℚ) : Bool :=
  match x with
  | .finite q => decide (q ≤ y)
  | .inf => false
  | .ninf => true
  | .nan => false

/-- Python `x > y` for a float `x` against a finite bound `y`: IEEE
semantics, so any comparison with NaN is `False`. -/
def pyGt (x : PyFloat) (y : ℚ) : Bool :=
  match x with
  | .finite q => decide (y < q)
  | .inf => true
  | .ninf => false
  | .nan => false

/-- The finite value of a parsed decimal literal: sign, integer digits,
fractional digits and a decimal exponent, combined exactly. -/
def finOf (neg : Bool) (ip fp : List Char) (ex : ℤ) : PyFloat :=
  let mantNum : ℤ := (natOfDigits ip : ℤ) * (10 : ℤ) ^ fp.length + (natOfDigits fp : ℤ)
  let num : ℤ := if neg then -mantNum else mantNum
  let p : ℤ := ex - (fp.length : ℤ)
  .finite (if 0 ≤ p then mkRat (num * (10 : ℤ) ^ p.toNat) 1 else mkRat num ((10 : ℕ) ^ (-p).toNat))

/-- Model of Python `float(s)` on the whitespace-free tokens produced by
`str.split()`: optional sign; `inf`/`infinity`/`nan` (case-insensitive);
otherwise a decimal literal with optional fractional part, optional
`e`-exponent, and PEP 515 underscores between digits.  `none` models the
`ValueError` branch of `add_product`. -/
def parseAmount (s : String) : Option PyFloat :=
  let cs := s.data.map pyLowerChar
  let signed : Bool × List Char :=
    match cs with
    | '-' :: r => (true, r)
    | '+' :: r => (false, r)
    | r => (false, r)
  let rest := signed.2
  if rest = ['i', 'n', 'f'] ∨ rest = ['i', 'n', 'f', 'i', 'n', 'i', 't', 'y'] then
    some (if signed.1 then .ninf else .inf)
  else if rest = ['n', 'a', 'n'] then some .nan
  else if underscoresOk rest = false then none
  else
    let ds := rest.filter (fun c => c ≠ '_')
    let pe := splitE ds
    let pd := splitDot pe.1
    let ip := pd.1
    let fp := (pd.2).getD []
    if (ip ≠ [] ∨ fp ≠ []) ∧ ip.all Char.isDigit ∧ fp.all Char.isDigit ∧ ¬ fp.contains '.' then
      match pe.2 with
      | none => some (finOf signed.1 ip fp 0)
      | some ex =>
        let esigned : Bool × List Char :=
          match ex with
          | '-' :: r => (true, r)
          | '+' :: r => (false, r)
          | r => (false, r)
        if esigned.2 ≠ [] ∧ esigned.2.all Char.isDigit then
          some (finOf signed.1 ip fp
            (if esigned.1 then -(natOfDigits esigned.2 : ℤ) else (natOfDigits esigned.2 : ℤ)))
        else none
    else none

/-- Two-digit zero-padded rendering of a value below 100. -/
def pad2 (n : Nat) : String :=
  if n < 10 then "0" ++ toString n else toString n

/-- Model of Python `f"{x:.2f}"`: fixed two-decimal rendering. -/
def formatFixed2 (q : ℚ) : String :=
  let sign := if q < 0 then "-" else ""
  let c := (round (|q| * 100)).toNat
  sign ++ toString (c / 100) ++ "." ++ pad2 (c % 100)

/-- Fractional digits of a rational in `[0,1)`, most significant first,
up to the given fuel, with trailing zeros suppressed via the `q = 0` stop. -/
def fracDigitsAux : Nat → ℚ → List Char
  | 0, _ => []
  | fuel + 1, q =>
    if q = 0 then []
    else
      let q10 := q * 10
      Char.ofNat (48 + (⌊q10⌋).toNat) :: fracDigitsAux fuel (q10 - ⌊q10⌋)

/-- Model of Python `f"{x}"` on a float quantity (e.g. `200.0`, `0.5`). -/
def amountRepr (q : ℚ) : String :=
  let sign := if q < 0 then "-" else ""
  let aq := |q|
  let ds := fracDigitsAux 17 (aq - ⌊aq⌋)
  sign ++ toString (⌊aq⌋).toNat ++ "." ++ (if ds.isEmpty then "0" else String.mk ds)

/-- Model of Python `f"{x}"` on any float value, special values included. -/
def pyFloatRepr : PyFloat → String
  | .finite q => amountRepr q
  | .inf => "inf"
  | .ninf => "-inf"
  | .nan => "nan"

/-! ## Data model: the `users` and `entries` tables -/

/-- One row of the `users` table: `user_id` (primary key) and `chat_id`,
the notification address used by the scheduler. -/
structure UserRow where
  user_id : Nat
  chat_id : Nat
deriving DecidableEq

/-- One row of the `entries` table (the auto-increment `entry_id` is the
row's position in the list; it is never selected by the reports). -/
structure Entry where
  user_id : Nat
  date : String
  product : String
  amount : PyFloat
  calories : ℚ
  proteins : ℚ
  fats : ℚ
  carbs : ℚ
deriving DecidableEq

/-- The nutrient values returned by `get_nutrition` on success. -/
structure Nutrition where
  calories : ℚ
  proteins : ℚ
  fats : ℚ
  carbs : ℚ
deriving DecidableEq

/-- The SQLite database `nutrition.db`: both tables, rows in insertion order. -/
structure DB where
  users : List UserRow
  entries : List Entry
deriving DecidableEq

/-- The empty database created at startup. -/
def DB.init : DB := ⟨[], []⟩

/-- The user-registration snippet shared by `start` and `add_product`
(`SELECT * FROM users WHERE user_id = ?`, then `INSERT` if absent). -/
def registerUser (db : DB) (uid cid : Nat) : DB :=
  if db.users.any (fun u => u.user_id == uid) then db
  else { db with users := db.users ++ [⟨uid, cid⟩] }

/-- `INSERT INTO entries ... VALUES (...)`: appends one immutable row. -/
def appendEntry (db : DB) (e : Entry) : DB :=
  { db with entries := db.entries ++ [e] }

/-- `SELECT product, amount, calories, proteins, fats, carbs FROM entries
WHERE user_id = ? AND date = ?`, in insertion order. -/
def entriesForUserOnDate (db : DB) (uid : Nat) (d : String) : List Entry :=
  db.entries.filter (fun e => e.user_id == uid && e.date == d)

/-- `SELECT chat_id, user_id FROM users`: the scheduler's snapshot. -/
def allUsers (db : DB) : List UserRow := db.users

/-! ## Aggregation and report formatting -/

/-- The four running totals of the report loop. -/
structure Totals where
  calories : ℚ
  proteins : ℚ
  fats : ℚ
  carbs : ℚ
deriving DecidableEq

/-- `total_calories = total_proteins = total_fats = total_carbs = 0`. -/
def zeroTotals : Totals := ⟨0, 0, 0, 0⟩

/-- One iteration of the `+=` accumulation in the report loop. -/
def addEntry (t : Totals) (e : Entry) : Totals :=
  ⟨t.calories + e.calories, t.proteins + e.proteins, t.fats + e.fats, t.carbs + e.carbs⟩

/-- The daily aggregate: the four `+=` sums over the selected rows. -/
def aggregate (rows : List Entry) : Totals :=
  rows.foldl addEntry zeroTotals

/-- One per-row line of the report:
`- {product.capitalize()}: {amount} г\n  Калории: {calories:.2f} ккал, Б: ... `. -/
def entryLine (e : Entry) : String :=
  "- " ++ capitalize e.product ++ ": " ++ pyFloatRepr e.amount ++ " г\n  Калории: "
    ++ formatFixed2 e.calories ++ " ккал, Б: " ++ formatFixed2 e.proteins
    ++ " г, Ж: " ++ formatFixed2 e.fats ++ " г, У: " ++ formatFixed2 e.carbs ++ " г\n"

/-- The totals section appended after the per-row lines. -/
def totalsBlock (t : Totals) : String :=
  "\n*Итого за день:*\nКалории: " ++ formatFixed2 t.calories ++ " ккал\nБелки: "
    ++ formatFixed2 t.proteins ++ " г\nЖиры: " ++ formatFixed2 t.fats
    ++ " г\nУглеводы: " ++ formatFixed2 t.carbs ++ " г"

/-- `''.join(report_lines)`: header line, one line per row, totals section.
The header differs between the on-demand and the scheduled report. -/
def formatReport (header date : String) (rows : List Entry) : String :=
  String.join ((header ++ date ++ ":*\n") :: rows.map entryLine ++ [totalsBlock (aggregate rows)])

/-- The fixed empty-day message sent by both report flows. -/
def emptyDayMessage : String := "Вы ничего не записали сегодня."

/-- The `/report` handler's output text for one user on one date. -/
def report (db : DB) (uid : Nat) (date : String) : String :=
  let rows := entriesForUserOnDate db uid date
  if rows = [] then emptyDayMessage
  else formatReport "📊 *Отчет за " date rows

/-- The text the scheduler sends to one user on one date. -/
def scheduledMessage (db : DB) (uid : Nat) (date : String) : String :=
  let rows := entriesForUserOnDate db uid date
  if rows = [] then emptyDayMessage
  else formatReport "📊 *Автоматический отчет за " date rows

/-! ## The `add_product` message handler -/

/-- The reply `add_product` sends back; each constructor is one
`reply_text` call of the handler. -/
inductive Reply where
  | emptyPrompt
  | needTwoParts
  | badNumber
  | badRange
  | translateError
  | translateEmpty
  | lookupFailed
  | added (product : String) (amount : PyFloat) (n : Nutrition)
deriving DecidableEq

/-- The `add_product` handler.  `translate` models
`GoogleTranslator.translate` (`none` = raised an exception; an empty
string = falsy result), and `getNutrition` models `get_nutrition`
(`none` = lookup failed or no `totalNutrients`).  Returns the database
after the call together with the reply sent to the user. -/
def add_product (translate : String → Option String)
    (getNutrition : String → PyFloat → Option Nutrition)
    (db : DB) (uid cid : Nat) (date : String) (text : String) : DB × Reply :=
  let user_input := pyStrip (pyLower text)
  if user_input = "" then (db, .emptyPrompt)
  else
    let parts := pySplit user_input
    if parts.length < 2 then (db, .needTwoParts)
    else
      match parseAmount parts.getLast! with
      | none => (db, .badNumber)
      | some amount =>
        if pyLe amount 0 || pyGt amount 5000 then (db, .badRange)
        else
          let product_russian := String.intercalate " " parts.dropLast
          match translate product_russian with
          | none => (db, .translateError)
          | some product_english =>
            if product_english = "" then (db, .translateEmpty)
            else
              match getNutrition product_english amount with
              | none => (db, .lookupFailed)
              | some n =>
                let db1 := registerUser db uid cid
                let e : Entry :=
                  ⟨uid, date, product_russian, amount, n.calories, n.proteins, n.fats, n.carbs⟩
                (appendEntry db1 e, .added product_russian amount n)

/-! ## The daily broadcast cycle -/

/-- The scheduler's per-user loop over a user snapshot.  `send` models
`application.bot.send_message`: `true` = delivered, `false` = raised.
Returns the list of `(chat_id, text)` messages actually delivered and
whether the loop ran to completion: as in the source, a raising send has
no surrounding `try`, so it aborts the remaining iteration. -/
def runBroadcast (send : Nat → String → Bool) (db : DB) (date : String) :
    List UserRow → List (Nat × String) × Bool
  | [] => ([], true)
  | u :: rest =>
    let msg := scheduledMessage db u.user_id date
    if send u.chat_id msg then
      let r := runBroadcast send db date rest
      ((u.chat_id, msg) :: r.1, r.2)
    else ([], false)

/-- `scheduled_daily_report`: snapshot all users, then run the per-user loop. -/
def scheduled_daily_report (send : Nat → String → Bool) (db : DB) (date : String) :
    List (Nat × String) × Bool :=
  runBroadcast send db date (allUsers db)

/-! ## Startup configuration check -/

/-- Python truthiness of an `os.getenv` result: `None` and `""` are falsy. -/
def pyTruthy (v : Option String) : Bool :=
  match v with
  | none => false
  | some s => s ≠ ""

/-- The startup error message raised when a configuration value is missing. -/
def configErrorMessage : String :=
  "Пожалуйста, убедитесь, что все необходимые переменные окружения заданы в .env файле."

/-- The module-level check `if not all([EDAMAM_APP_ID, EDAMAM_APP_KEY,
BOT_TOKEN]): raise ValueError(...)`. -/
def configCheck (appId appKey botToken : Option String) : Except String Unit :=
  if pyTruthy appId && pyTruthy appKey && pyTruthy botToken then .ok ()
  else .error configErrorMessage

/-! ## Concrete collaborators and databases used in witnesses -/

/-- A translator stub that always succeeds with `"apple"`. -/
def trConst : String → Option String := fun _ => some "apple"

/-- A nutrient-lookup stub that always succeeds with unit values. -/
def gnConst : String → PyFloat → Option Nutrition := fun _ _ => some ⟨1, 1, 1, 1⟩

/-- A notifier whose send raises exactly for chat id 10. -/
def sendFailFirst (cid : Nat) (_msg : String) : Bool := cid != 10

/-- A database with two registered users (chats 10 and 20) and no entries;
the scheduler visits chat 10 first. -/
def twoUserDB : DB := ⟨[⟨1, 10⟩, ⟨2, 20⟩], []⟩

/-- A database with two registered users where the scheduler visits the
healthy chat 20 first and the failing chat 10 second. -/
def preFailDB : DB := ⟨[⟨2, 20⟩, ⟨1, 10⟩], []⟩

/-! ## Store lemmas -/

/-- Registering a user never touches the `entries` table. -/
theorem registerUser_entries (db : DB) (uid cid : Nat) :
    (registerUser db uid cid).entries = db.entries := by
  unfold registerUser
  split <;> rfl

/-- A sequence of entry inserts appends exactly those rows, in order. -/
theorem entries_foldl_appendEntry (ops : List Entry) (db : DB) :
    (ops.foldl appendEntry db).entries = db.entries ++ ops := by
  induction ops generalizing db with
  | nil => simp
  | cons e rest ih => simp [appendEntry, ih]

/-- The per-date query after a sequence of inserts: the old rows followed
by exactly the inserted rows that match the (user, date) key. -/
theorem entriesForUserOnDate_foldl (ops : List Entry) (db : DB) (uid : Nat) (d : String) :
    entriesForUserOnDate (ops.foldl appendEntry db) uid d
      = entriesForUserOnDate db uid d
        ++ ops.filter (fun e => e.user_id == uid && e.date == d) := by
  unfold entriesForUserOnDate
  rw [entries_foldl_appendEntry, List.filter_append]

/-- The report loop's running totals are the field-wise sums of the rows. -/
theorem foldl_addEntry_eq (rows : List Entry) (t : Totals) :
    rows.foldl addEntry t
      = ⟨t.calories + (rows.map Entry.calories).sum,
         t.proteins + (rows.map Entry.proteins).sum,
         t.fats + (rows.map Entry.fats).sum,
         t.carbs + (rows.map Entry.carbs).sum⟩ := by
  induction rows generalizing t with
  | nil => simp
  | cons e rest ih =>
    simp only [List.foldl_cons, ih, List.map_cons, List.sum_cons]
    simp [addEntry]
    refine ⟨by ring, by ring, by ring, by ring⟩

/-! ## Claim theorems -/

/-- C2: for every sequence of appends starting from a state with no rows
for (user, date), aggregating the per-date query's result gives field-wise
sums of the nutrient values passed to the matching appends, independent of
interleaving with other users' appends; and `aggregate []` is all-zero. -/
theorem aggregate_matches_appended_sums (db : DB) (ops : List Entry) (uid : Nat) (d : String)
    (hempty : entriesForUserOnDate db uid d = []) :
    aggregate [] = zeroTotals ∧
    aggregate (entriesForUserOnDate (ops.foldl appendEntry db) uid d)
      = ⟨((ops.filter (fun e => e.user_id == uid && e.date == d)).map Entry.calories).sum,
         ((ops.filter (fun e => e.user_id == uid && e.date == d)).map Entry.proteins).sum,
         ((ops.filter (fun e => e.user_id == uid && e.date == d)).map Entry.fats).sum,
         ((ops.filter (fun e => e.user_id == uid && e.date == d)).map Entry.carbs).sum⟩ := by
  constructor
  · rfl
  · rw [entriesForUserOnDate_foldl, hempty, List.nil_append]
    unfold aggregate
    rw [foldl_addEntry_eq]
    simp [zeroTotals]

/-- Witness for C2 at a concrete interleaved history: user 3 appends 100
and 150 calories while user 4 appends in between; user 3's aggregate is
the sum (250, ...) of exactly their own appends. -/
theorem aggregate_matches_appended_sums_witness :
    aggregate [] = zeroTotals ∧
    aggregate (entriesForUserOnDate
        ([⟨3, "2024-01-01", "рис", .finite 100, 100, 2, 1, 20⟩,
          ⟨4, "2024-01-01", "сыр", .finite 50, 999, 9, 9, 9⟩,
          ⟨3, "2024-01-01", "курица", .finite 150, 150, 30, 5, 0⟩].foldl appendEntry DB.init) 3 "2024-01-01")
      = ⟨(([⟨3, "2024-01-01", "рис", .finite 100, 100, 2, 1, 20⟩,
            ⟨4, "2024-01-01", "сыр", .finite 50, 999, 9, 9, 9⟩,
            ⟨3, "2024-01-01", "курица", .finite 150, 150, 30, 5, 0⟩].filter
              (fun e => e.user_id == 3 && e.date == "2024-01-01")).map Entry.calories).sum,
         (([⟨3, "2024-01-01", "рис", .finite 100, 100, 2, 1, 20⟩,
            ⟨4, "2024-01-01", "сыр", .finite 50, 999, 9, 9, 9⟩,
            ⟨3, "2024-01-01", "курица", .finite 150, 150, 30, 5, 0⟩].filter
              (fun e => e.user_id == 3 && e.date == "2024-01-01")).map Entry.proteins).sum,
         (([⟨3, "2024-01-01", "рис", .finite 100, 100, 2, 1, 20⟩,
            ⟨4, "2024-01-01", "сыр", .finite 50, 999, 9, 9, 9⟩,
            ⟨3, "2024-01-01", "курица", .finite 150, 150, 30, 5, 0⟩].filter
              (fun e => e.user_id == 3 && e.date == "2024-01-01")).map Entry.fats).sum,
         (([⟨3, "2024-01-01", "рис", .finite 100, 100, 2, 1, 20⟩,
            ⟨4, "2024-01-01", "сыр", .finite 50, 999, 9, 9, 9⟩,
            ⟨3, "2024-01-01", "курица", .finite 150, 150, 30, 5, 0⟩].filter
              (fun e => e.user_id == 3 && e.date == "2024-01-01")).map Entry.carbs).sum⟩ :=
  aggregate_matches_appended_sums DB.init _ 3 "2024-01-01" rfl

/-- C5: starting from a state with no rows for (user, date), appending
entries E1..En all keyed to that (user, date) makes the per-date query
return exactly those n entries, content-equal and in order. -/
theorem entries_immutable_cumulative (db : DB) (ops : List Entry) (uid : Nat) (d : String)
    (hempty : entriesForUserOnDate db uid d = [])
    (hown : ∀ e ∈ ops, e.user_id = uid ∧ e.date = d) :
    entriesForUserOnDate (ops.foldl appendEntry db) uid d = ops := by
  rw [entriesForUserOnDate_foldl, hempty, List.nil_append]
  rw [List.filter_eq_self]
  intro e he
  rcases hown e he with ⟨h1, h2⟩
  simp [h1, h2]

/-- Witness for C5: two entries appended for (user 1, one date) are
returned exactly, in order. -/
theorem entries_immutable_cumulative_witness :
    entriesForUserOnDate
        ([⟨1, "2024-01-01", "яблоко", .finite 200, 104, 1/2, 3/10, 28⟩,
          ⟨1, "2024-01-01", "рис", .finite 100, 130, 2, 1, 28⟩].foldl appendEntry DB.init) 1 "2024-01-01"
      = [⟨1, "2024-01-01", "яблоко", .finite 200, 104, 1/2, 3/10, 28⟩,
         ⟨1, "2024-01-01", "рис", .finite 100, 130, 2, 1, 28⟩] :=
  entries_immutable_cumulative DB.init _ 1 "2024-01-01" rfl (by decide)

/-- C4: registering the same user id twice (with possibly different chat
ids) is idempotent: the second call is a no-op, and exactly one row for
that user id exists, carrying the chat id of the first call. -/
theorem registerUser_idempotent (db : DB) (uid c1 c2 : Nat)
    (hfresh : ∀ u ∈ db.users, u.user_id ≠ uid) :
    registerUser (registerUser db uid c1) uid c2 = registerUser db uid c1 ∧
    (registerUser (registerUser db uid c1) uid c2).users.filter (fun u => u.user_id == uid)
      = [⟨uid, c1⟩] := by
  have hany : db.users.any (fun u => u.user_id == uid) = false := by
    rw [List.any_eq_false]
    intro u hu
    simp [hfresh u hu]
  have h1 : registerUser db uid c1 = { db with users := db.users ++ [⟨uid, c1⟩] } := by
    unfold registerUser
    rw [hany]
    simp
  have h2 : registerUser (registerUser db uid c1) uid c2 = registerUser db uid c1 := by
    rw [h1]
    unfold registerUser
    simp
  refine ⟨h2, ?_⟩
  rw [h2, h1]
  simp only [List.filter_append]
  have hnone : db.users.filter (fun u => u.user_id == uid) = [] := by
    rw [List.filter_eq_nil_iff]
    intro u hu
    simp [hfresh u hu]
  simp [hnone]

/-- Witness for C4: registering user 7 twice with chat ids 70 then 71
keeps one row with chat id 70. -/
theorem registerUser_idempotent_witness :
    registerUser (registerUser DB.init 7 70) 7 71 = registerUser DB.init 7 70 ∧
    (registerUser (registerUser DB.init 7 70) 7 71).users.filter (fun u => u.user_id == 7)
      = [⟨7, 70⟩] :=
  registerUser_idempotent DB.init 7 70 71 (by decide)

/-- C6: when the per-date query is empty, both the on-demand report and
the scheduled per-user message are the fixed empty-day text; no aggregate
or formatted report is produced. -/
theorem empty_day_fixed_message (db : DB) (uid : Nat) (d : String)
    (hempty : entriesForUserOnDate db uid d = []) :
    report db uid d = emptyDayMessage ∧ scheduledMessage db uid d = emptyDayMessage := by
  constructor
  · unfold report
    rw [hempty]
    rfl
  · unfold scheduledMessage
    rw [hempty]
    rfl

/-- Witness for C6: user 2 with no entries today gets the fixed message
from both flows. -/
theorem empty_day_fixed_message_witness :
    report DB.init 2 "2024-01-01" = emptyDayMessage ∧
    scheduledMessage DB.init 2 "2024-01-01" = emptyDayMessage :=
  empty_day_fixed_message DB.init 2 "2024-01-01" rfl

/-- C8: report formatting is deterministic — equal dates and equal entry
lists (hence equal aggregates) produce byte-identical output text. -/
theorem formatReport_deterministic (header d1 d2 : String) (rows1 rows2 : List Entry)
    (hd : d1 = d2) (hrows : rows1 = rows2) :
    formatReport header d1 rows1 = formatReport header d2 rows2 := by
  rw [hd, hrows]

/-- Witness for C8: two invocations on an identical concrete date and
entry list coincide. -/
theorem formatReport_deterministic_witness :
    formatReport "📊 *Отчет за " "2024-01-01" [⟨1, "2024-01-01", "яблоко", .finite 200, 104, 1/2, 3/10, 28⟩]
      = formatReport "📊 *Отчет за " "2024-01-01"
          [⟨1, "2024-01-01", "яблоко", .finite 200, 104, 1/2, 3/10, 28⟩] :=
  formatReport_deterministic "📊 *Отчет за " "2024-01-01" "2024-01-01" _ _ rfl rfl

/-- C9: the startup check validates presence of all three configuration
values; if any of them is absent the check raises (and when all three are
present and non-empty it passes). -/
theorem config_absence_fatal (a b k : Option String) :
    ((a = none ∨ b = none ∨ k = none) → configCheck a b k = .error configErrorMessage) ∧
    (pyTruthy a = true → pyTruthy b = true → pyTruthy k = true → configCheck a b k = .ok ()) := by
  constructor
  · intro h
    rcases h with h | h | h <;> subst h <;> simp [configCheck, pyTruthy]
  · intro ha hb hk
    simp [configCheck, ha, hb, hk]

/-- Witness for C9: a missing Edamam app id is fatal, and a fully present
configuration passes. -/
theorem config_absence_fatal_witness :
    configCheck none (some "key") (some "token") = .error configErrorMessage ∧
    configCheck (some "id") (some "key") (some "token") = .ok () :=
  ⟨(config_absence_fatal none (some "key") (some "token")).1 (Or.inl rfl),
   (config_absence_fatal (some "id") (some "key") (some "token")).2 (by decide) (by decide)
     (by decide)⟩

/-- The per-user loop up to and including the first raising send: every
user before it is delivered to, the raising send aborts the rest. -/
theorem runBroadcast_abort (send : Nat → String → Bool) (db : DB) (date : String)
    (pre : List UserRow) (u : UserRow) (rest : List UserRow)
    (hpre : ∀ v ∈ pre, send v.chat_id (scheduledMessage db v.user_id date) = true)
    (hu : send u.chat_id (scheduledMessage db u.user_id date) = false) :
    runBroadcast send db date (pre ++ u :: rest)
      = (pre.map (fun v => (v.chat_id, scheduledMessage db v.user_id date)), false) := by
  induction pre with
  | nil => simp [runBroadcast, hu]
  | cons v vs ih =>
    have hv : send v.chat_id (scheduledMessage db v.user_id date) = true := hpre v (by simp)
    have hvs : ∀ w ∈ vs, send w.chat_id (scheduledMessage db w.user_id date) = true :=
      fun w hw => hpre w (by simp [hw])
    simp only [List.cons_append, runBroadcast, hv, if_true]
    simp only [List.append_eq]
    rw [ih hvs]
    simp

/-- C1 corrected: a raising per-user send in the broadcast cycle aborts
the remaining iteration — the users before the first failing one receive
their messages, the failing one and all later users receive nothing. -/
theorem broadcast_failure_aborts_rest (send : Nat → String → Bool) (db : DB) (date : String)
    (pre : List UserRow) (u : UserRow) (rest : List UserRow)
    (husers : allUsers db = pre ++ u :: rest)
    (hpre : ∀ v ∈ pre, send v.chat_id (scheduledMessage db v.user_id date) = true)
    (hu : send u.chat_id (scheduledMessage db u.user_id date) = false) :
    scheduled_daily_report send db date
      = (pre.map (fun v => (v.chat_id, scheduledMessage db v.user_id date)), false) := by
  unfold scheduled_daily_report
  rw [husers]
  exact runBroadcast_abort send db date pre u rest hpre hu

/-- Witness for the corrected C1: with chat 20 before the failing chat 10,
only chat 20 is delivered to and the cycle aborts. -/
theorem broadcast_failure_aborts_rest_witness :
    scheduled_daily_report sendFailFirst preFailDB "2024-01-01"
      = ([(20, scheduledMessage preFailDB 2 "2024-01-01")], false) :=
  broadcast_failure_aborts_rest sendFailFirst preFailDB "2024-01-01"
    [⟨2, 20⟩] ⟨1, 10⟩ [] rfl (by decide) (by decide)

/-- Counterexample to C1 as stated: with the failing chat 10 first, the
later user (chat 20) is never delivered to — the cycle returns no
deliveries at all, even though sending to chat 20 would have succeeded. -/
theorem broadcast_failure_not_isolated :
    scheduled_daily_report sendFailFirst twoUserDB "2024-01-01" = ([], false) ∧
    sendFailFirst 20 (scheduledMessage twoUserDB 2 "2024-01-01") = true := by
  constructor
  · rfl
  · rfl

/-- C3 corrected: whenever a submission is accepted, the stored product
field is the lowercased, whitespace-normalized name part of the submitted
text (the handler lowercases and strips the whole message before parsing),
and the inserted row is appended verbatim with that stored name. -/
theorem stored_product_lower_normalized (translate : String → Option String)
    (getNutrition : String → PyFloat → Option Nutrition)
    (db : DB) (uid cid : Nat) (date text : String) (db2 : DB) (p : String) (q : PyFloat)
    (n : Nutrition)
    (h : add_product translate getNutrition db uid cid date text = (db2, .added p q n)) :
    p = String.intercalate " " ((pySplit (pyStrip (pyLower text))).dropLast) ∧
    db2.entries = db.entries ++ [⟨uid, date, p, q, n.calories, n.proteins, n.fats, n.carbs⟩] := by
  simp only [add_product] at h
  split at h
  · exact absurd h (by simp)
  · split at h
    · exact absurd h (by simp)
    · split at h
      · exact absurd h (by simp)
      · split at h
        · exact absurd h (by simp)
        · split at h
          · exact absurd h (by simp)
          · split at h
            · exact absurd h (by simp)
            · split at h
              · exact absurd h (by simp)
              · rw [Prod.mk.injEq] at h
                obtain ⟨hdb, hr⟩ := h
                injection hr with hp hq hn
                subst hp hq hn
                subst hdb
                exact ⟨rfl, by simp [appendEntry, registerUser_entries]⟩

/-- Witness for the corrected C3: the submission "Apple 200" stores the
lowercased name "apple" and appends exactly that row. -/
theorem stored_product_lower_normalized_witness :
    ("apple" : String) = String.intercalate " " ((pySplit (pyStrip (pyLower "Apple 200"))).dropLast) ∧
    (DB.mk [⟨1, 10⟩] [⟨1, "2024-01-01", "apple", .finite 200, 1, 1, 1, 1⟩]).entries
      = DB.init.entries ++ [⟨1, "2024-01-01", "apple", .finite 200, 1, 1, 1, 1⟩] :=
  stored_product_lower_normalized trConst gnConst DB.init 1 10 "2024-01-01" "Apple 200"
    (DB.mk [⟨1, 10⟩] [⟨1, "2024-01-01", "apple", .finite 200, 1, 1, 1, 1⟩]) "apple"
    (.finite 200) ⟨1, 1, 1, 1⟩ (by decide)

/-- Counterexample to C3 as stated: submitting "Apple 200" stores the
product name "apple", not the verbatim "Apple" the user entered. -/
theorem stored_product_not_verbatim :
    (add_product trConst gnConst DB.init 1 10 "2024-01-01" "Apple 200").1.entries.map Entry.product
      = ["apple"] ∧ ("apple" : String) ≠ "Apple" := by
  constructor
  · rfl
  · decide

/-- C7: on a submission that passes parsing and range validation, if the
translation raises, returns an empty result, or the nutrient lookup
returns no result, the handler replies with the corresponding corrective
message and the database is left unchanged: no entry is inserted. -/
theorem lookup_failure_no_insert (translate : String → Option String)
    (getNutrition : String → PyFloat → Option Nutrition)
    (db : DB) (uid cid : Nat) (date text : String) (q : PyFloat)
    (h0 : ¬ pyStrip (pyLower text) = "")
    (h1 : ¬ (pySplit (pyStrip (pyLower text))).length < 2)
    (h2 : parseAmount (pySplit (pyStrip (pyLower text))).getLast! = some q)
    (h3 : ¬ (pyLe q 0 || pyGt q 5000) = true)
    (hfail :
      translate (String.intercalate " " ((pySplit (pyStrip (pyLower text))).dropLast)) = none
      ∨ translate (String.intercalate " " ((pySplit (pyStrip (pyLower text))).dropLast)) = some ""
      ∨ ∀ pe, translate (String.intercalate " " ((pySplit (pyStrip (pyLower text))).dropLast))
            = some pe → getNutrition pe q = none) :
    add_product translate getNutrition db uid cid date text = (db, .translateError)
    ∨ add_product translate getNutrition db uid cid date text = (db, .translateEmpty)
    ∨ add_product translate getNutrition db uid cid date text = (db, .lookupFailed) := by
  simp only [add_product, if_neg h0, if_neg h1, h2, if_neg h3]
  rcases hfail with hf | hf | hf
  · left
    simp [hf]
  · right
    left
    simp [hf]
  · cases htr : translate (String.intercalate " " ((pySplit (pyStrip (pyLower text))).dropLast))
      with
    | none =>
      left
      simp [htr]
    | some pe =>
      by_cases hpe : pe = ""
      · right
        left
        simp [htr, hpe]
      · right
        right
        simp [htr, hpe, hf pe htr]

/-- Witness for C7: the submission "яблоко 200" with a failing nutrient
lookup leaves the database unchanged and yields a corrective reply. -/
theorem lookup_failure_no_insert_witness :
    add_product trConst (fun _ _ => none) DB.init 1 10 "2024-01-01" "яблоко 200"
        = (DB.init, .translateError)
    ∨ add_product trConst (fun _ _ => none) DB.init 1 10 "2024-01-01" "яблоко 200"
        = (DB.init, .translateEmpty)
    ∨ add_product trConst (fun _ _ => none) DB.init 1 10 "2024-01-01" "яблоко 200"
        = (DB.init, .lookupFailed) :=
  lookup_failure_no_insert trConst (fun _ _ => none) DB.init 1 10 "2024-01-01" "яблоко 200"
    (.finite (mkRat 200 1)) (by decide) (by decide) (by decide) (by decide)
    (Or.inr (Or.inr (fun pe _ => rfl)))

/-- C10 corrected: with a well-formed two-token submission, acceptance is
decided by Python's range check `not (amount <= 0 or amount > 5000)` under
IEEE comparison semantics.  For a finite parsed value that check is
equivalent to 0 < q ≤ 5000; NaN also passes it (both comparisons are
false), while the two infinities fail it.  A value passing the check leads
to translation, lookup and — on lookup success — an entry insert; a value
failing it gets the range message and no insert; an unparsable final token
gets the number message and no insert. -/
theorem quantity_validation (translate : String → Option String)
    (getNutrition : String → PyFloat → Option Nutrition)
    (db : DB) (uid cid : Nat) (date text : String)
    (h0 : ¬ pyStrip (pyLower text) = "")
    (h1 : ¬ (pySplit (pyStrip (pyLower text))).length < 2) :
    (∀ q : ℚ, ¬ (pyLe (PyFloat.finite q) 0 || pyGt (PyFloat.finite q) 5000) = true
        ↔ (0 < q ∧ q ≤ 5000)) ∧
    (pyLe PyFloat.nan 0 || pyGt PyFloat.nan 5000) = false ∧
    (pyLe PyFloat.inf 0 || pyGt PyFloat.inf 5000) = true ∧
    (pyLe PyFloat.ninf 0 || pyGt PyFloat.ninf 5000) = true ∧
    (∀ v pe n, parseAmount (pySplit (pyStrip (pyLower text))).getLast! = some v →
      ¬ (pyLe v 0 || pyGt v 5000) = true →
      translate (String.intercalate " " ((pySplit (pyStrip (pyLower text))).dropLast)) = some pe →
      ¬ pe = "" → getNutrition pe v = some n →
      add_product translate getNutrition db uid cid date text
        = (appendEntry (registerUser db uid cid)
            ⟨uid, date, String.intercalate " " ((pySplit (pyStrip (pyLower text))).dropLast), v,
             n.calories, n.proteins, n.fats, n.carbs⟩,
           .added (String.intercalate " " ((pySplit (pyStrip (pyLower text))).dropLast)) v n)) ∧
    (∀ v, parseAmount (pySplit (pyStrip (pyLower text))).getLast! = some v →
      (pyLe v 0 || pyGt v 5000) = true →
      add_product translate getNutrition db uid cid date text = (db, .badRange)) ∧
    (parseAmount (pySplit (pyStrip (pyLower text))).getLast! = none →
      add_product translate getNutrition db uid cid date text = (db, .badNumber)) := by
  refine ⟨?_, rfl, rfl, rfl, ?_, ?_, ?_⟩
  · intro q
    simp only [pyLe, pyGt, Bool.or_eq_true, decide_eq_true_eq, not_or, not_le, not_lt]
  · intro v pe n hq hrange htr hpe hn
    simp only [add_product, if_neg h0, if_neg h1, hq, if_neg hrange, htr, if_neg hpe, hn]
  · intro v hq hrange
    simp only [add_product, if_neg h0, if_neg h1, hq, if_pos hrange]
  · intro hq
    simp only [add_product, if_neg h0, if_neg h1, hq]

/-- Witness for the corrected C10: "яблоко 0.5" (fractional, half a gram),
"хлеб 1e3" (exponent notation) and "хлеб 1_000" (underscore separator) are
accepted and inserted; "хлеб 6000" and "хлеб inf" are rejected by the
range check with no insert; "хлеб abc" fails to parse with no insert. -/
theorem quantity_validation_witness :
    add_product trConst gnConst DB.init 1 10 "2024-01-01" "яблоко 0.5"
      = (appendEntry (registerUser DB.init 1 10)
          ⟨1, "2024-01-01",
           String.intercalate " " ((pySplit (pyStrip (pyLower "яблоко 0.5"))).dropLast),
           .finite (mkRat 5 10), 1, 1, 1, 1⟩,
         .added (String.intercalate " " ((pySplit (pyStrip (pyLower "яблоко 0.5"))).dropLast))
           (.finite (mkRat 5 10)) ⟨1, 1, 1, 1⟩) ∧
    add_product trConst gnConst DB.init 1 10 "2024-01-01" "хлеб 1e3"
      = (appendEntry (registerUser DB.init 1 10)
          ⟨1, "2024-01-01",
           String.intercalate " " ((pySplit (pyStrip (pyLower "хлеб 1e3"))).dropLast),
           .finite (mkRat 1000 1), 1, 1, 1, 1⟩,
         .added (String.intercalate " " ((pySplit (pyStrip (pyLower "хлеб 1e3"))).dropLast))
           (.finite (mkRat 1000 1)) ⟨1, 1, 1, 1⟩) ∧
    add_product trConst gnConst DB.init 1 10 "2024-01-01" "хлеб 1_000"
      = (appendEntry (registerUser DB.init 1 10)
          ⟨1, "2024-01-01",
           String.intercalate " " ((pySplit (pyStrip (pyLower "хлеб 1_000"))).dropLast),
           .finite (mkRat 1000 1), 1, 1, 1, 1⟩,
         .added (String.intercalate " " ((pySplit (pyStrip (pyLower "хлеб 1_000"))).dropLast))
           (.finite (mkRat 1000 1)) ⟨1, 1, 1, 1⟩) ∧
    add_product trConst gnConst DB.init 1 10 "2024-01-01" "хлеб 6000" = (DB.init, .badRange) ∧
    add_product trConst gnConst DB.init 1 10 "2024-01-01" "хлеб inf" = (DB.init, .badRange) ∧
    add_product trConst gnConst DB.init 1 10 "2024-01-01" "хлеб abc" = (DB.init, .badNumber) :=
  ⟨(quantity_validation trConst gnConst DB.init 1 10 "2024-01-01" "яблоко 0.5"
      (by decide) (by decide)).2.2.2.2.1 (.finite (mkRat 5 10)) "apple" ⟨1, 1, 1, 1⟩
      (by decide) (by decide) rfl (by decide) rfl,
   (quantity_validation trConst gnConst DB.init 1 10 "2024-01-01" "хлеб 1e3"
      (by decide) (by decide)).2.2.2.2.1 (.finite (mkRat 1000 1)) "apple" ⟨1, 1, 1, 1⟩
      (by decide) (by decide) rfl (by decide) rfl,
   (quantity_validation trConst gnConst DB.init 1 10 "2024-01-01" "хлеб 1_000"
      (by decide) (by decide)).2.2.2.2.1 (.finite (mkRat 1000 1)) "apple" ⟨1, 1, 1, 1⟩
      (by decide) (by decide) rfl (by decide) rfl,
   (quantity_validation trConst gnConst DB.init 1 10 "2024-01-01" "хлеб 6000"
      (by decide) (by decide)).2.2.2.2.2.1 (.finite (mkRat 6000 1)) (by decide) (by decide),
   (quantity_validation trConst gnConst DB.init 1 10 "2024-01-01" "хлеб inf"
      (by decide) (by decide)).2.2.2.2.2.1 PyFloat.inf (by decide) (by decide),
   (quantity_validation trConst gnConst DB.init 1 10 "2024-01-01" "хлеб abc"
      (by decide) (by decide)).2.2.2.2.2.2 (by decide)⟩

/-- Counterexample to C10 as stated: Python `float("nan")` parses, and NaN
passes the range check because both IEEE comparisons are false, so the
submission "хлеб nan" is accepted — translated, looked up, and inserted
with amount NaN — although NaN is not a quantity q with 0 < q ≤ 5000, for
which the claim demands rejection with no insert. -/
theorem quantity_nan_accepted :
    parseAmount "nan" = some PyFloat.nan ∧
    (pyLe PyFloat.nan 0 || pyGt PyFloat.nan 5000) = false ∧
    add_product trConst gnConst DB.init 1 10 "2024-01-01" "хлеб nan"
      = (appendEntry (registerUser DB.init 1 10)
          ⟨1, "2024-01-01", "хлеб", PyFloat.nan, 1, 1, 1, 1⟩,
         .added "хлеб" PyFloat.nan ⟨1, 1, 1, 1⟩) := by
  refine ⟨rfl, rfl, ?_⟩
  decide

end NutritionBot
